import Mathlib

/-!
Shallow embedding of the OSIsoft PI Web API Grafana datasource backend
(package `plugin`): the query data model, URI builder, target expansion,
batch orchestration and batch-response classification, together with
theorems about the behaviour of those functions.

External collaborators that live outside the embedded files
(`getWebID`, `apiBatchRequest`, `convertItemsToDataFrame`,
`getTypeForWebID`, `getDigitalStateforWebID`, the uuid generator) are
taken as oracle parameters, so every theorem quantifies over all of
their possible behaviours.
-/

/-- A model of dynamically-typed JSON values, as produced by decoding into
a Go `interface\x7b\x7d`.  Numbers are modelled as integers, which covers
every numeric field the classifier inspects (`Status`). -/
inductive JSON where
  | null : JSON
  | bool (b : Bool) : JSON
  | num (n : Int) : JSON
  | str (s : String) : JSON
  | arr (elems : List JSON) : JSON
  | obj (fields : List (String × JSON)) : JSON

/-- Lookup of a key in a decoded JSON object.  Go decodes an object into a
`map[string]interface\x7b\x7d`, where a duplicated key keeps the value seen
last, hence the lookup returns the last binding of the key. -/
def lookupJ (fields : List (String × JSON)) (k : String) : Option JSON :=
  (fields.filter (fun p => p.1 = k)).getLast?.map (fun p => p.2)

/-- View of a JSON value as an object, mirroring the Go type assertion
`v.(map[string]interface\x7b\x7d)`. -/
def JSON.getObj? : JSON → Option (List (String × JSON))
  | .obj fields => some fields
  | _ => none

/-- Holds exactly when the value is a JSON array, mirroring the Go type
assertion `v.([]interface\x7b\x7d)` succeeding. -/
def JSON.isArr : JSON → Bool
  | .arr _ => true
  | _ => false

/-- Holds exactly when the value is a JSON object. -/
def JSON.isObj : JSON → Bool
  | .obj _ => true
  | _ => false

/-- The `Status` field of the envelope, as left behind by the unchecked
`json.Unmarshal(data, &PIBatchResponseBase)` call: a missing or
non-numeric `Status` leaves the zero value `0`. -/
def getStatus (raw : List (String × JSON)) : Int :=
  match lookupJ raw "Status" with
  | some (.num n) => n
  | _ => 0

/-- One timestamped value of a batch response, mirroring the Go struct
`PiBatchContentItem`.  The `Value` field is `interface\x7b\x7d` in Go and
is kept as an uninterpreted JSON value here. -/
structure PiBatchContentItem where
  Timestamp : String
  Value : JSON
  UnitsAbbreviation : String
  Good : Bool
  Questionable : Bool
  Substituted : Bool
  Annotated : Bool

/-- The zero value of `PiBatchContentItem`, produced by Go when a JSON
`null` is decoded into the struct. -/
def zeroContentItem : PiBatchContentItem :=
  { Timestamp := "", Value := .null, UnitsAbbreviation := "",
    Good := false, Questionable := false, Substituted := false, Annotated := false }

/-- Decoding a JSON value into a Go `string` field: a missing key or
`null` leaves the zero value `""`, a string succeeds, any other shape is
an unmarshal type error. -/
def decodeStringField (fields : List (String × JSON)) (k : String) : Option String :=
  match lookupJ fields k with
  | none => some ""
  | some .null => some ""
  | some (.str s) => some s
  | some _ => none

/-- Decoding a JSON value into a Go `bool` field, with the same
missing/null/zero-value rules as `decodeStringField`. -/
def decodeBoolField (fields : List (String × JSON)) (k : String) : Option Bool :=
  match lookupJ fields k with
  | none => some false
  | some .null => some false
  | some (.bool b) => some b
  | some _ => none

/-- Decoding a JSON value into a Go `map[string]interface\x7b\x7d` field
(the `Links` fields): missing, `null` or an object succeed, any other
shape is an unmarshal type error.  The decoded map itself is never read
by the classifier, so only success or failure is recorded. -/
def decodeMapField (fields : List (String × JSON)) (k : String) : Option Unit :=
  match lookupJ fields k with
  | none => some ()
  | some .null => some ()
  | some (.obj _) => some ()
  | some _ => none

/-- Decoding a JSON value into a Go `*string` field (the `Error` field of
`PiBatchDataWithSubItems`): missing or `null` gives a nil pointer. -/
def decodeStringPtrField (fields : List (String × JSON)) (k : String) : Option (Option String) :=
  match lookupJ fields k with
  | none => some none
  | some .null => some none
  | some (.str s) => some (some s)
  | some _ => none

/-- Decoding one element of an `Items` array into `PiBatchContentItem`:
`null` yields the zero struct, an object decodes field by field, any
other shape is an unmarshal type error. -/
def decodeContentItem : JSON → Option PiBatchContentItem
  | .null => some zeroContentItem
  | .obj fields =>
      match decodeStringField fields "Timestamp",
            decodeStringField fields "UnitsAbbreviation",
            decodeBoolField fields "Good",
            decodeBoolField fields "Questionable",
            decodeBoolField fields "Substituted",
            decodeBoolField fields "Annotated" with
      | some ts, some ua, some g, some qu, some sub, some ann =>
          some { Timestamp := ts, Value := (lookupJ fields "Value").getD .null,
                 UnitsAbbreviation := ua, Good := g, Questionable := qu,
                 Substituted := sub, Annotated := ann }
      | _, _, _, _, _, _ => none
  | _ => none

/-- Decoding a list of JSON values element-wise into `PiBatchContentItem`
values; any failing element fails the whole decode, as `json.Unmarshal`
reports an error for the enclosing array. -/
def decodeContentItemList : List JSON → Option (List PiBatchContentItem)
  | [] => some []
  | x :: xs =>
      match decodeContentItem x, decodeContentItemList xs with
      | some i, some is => some (i :: is)
      | _, _ => none

/-- Decoding a JSON value into a `[]PiBatchContentItem` field: missing or
`null` gives the nil slice, an array decodes element-wise. -/
def decodeItemsField (fields : List (String × JSON)) : Option (List PiBatchContentItem) :=
  match lookupJ fields "Items" with
  | none => some []
  | some .null => some []
  | some (.arr xs) => decodeContentItemList xs
  | some _ => none

/-- One element of the outer `Items` array of `PiBatchDataWithSubItems`,
mirroring the anonymous struct in the Go source. -/
structure PiBatchSubItem where
  WebId : String
  Name : String
  Path : String
  LinksSource : String
  Items : List PiBatchContentItem
  UnitsAbbreviation : String

/-- Decoding the `Links` field of a sub-item (`PiBatchContentLinks`,
a struct with a single `Source` string). -/
def decodeContentLinks (fields : List (String × JSON)) : Option String :=
  match lookupJ fields "Links" with
  | none => some ""
  | some .null => some ""
  | some (.obj lf) => decodeStringField lf "Source"
  | some _ => none

/-- Decoding one element of the outer `Items` array of a nested
(`WithSubItems`) payload. -/
def decodeSubItem : JSON → Option PiBatchSubItem
  | .null => some { WebId := "", Name := "", Path := "", LinksSource := "",
                    Items := [], UnitsAbbreviation := "" }
  | .obj fields =>
      match decodeStringField fields "WebId",
            decodeStringField fields "Name",
            decodeStringField fields "Path",
            decodeContentLinks fields,
            decodeItemsField fields,
            decodeStringField fields "UnitsAbbreviation" with
      | some w, some n, some p, some l, some its, some ua =>
          some { WebId := w, Name := n, Path := p, LinksSource := l,
                 Items := its, UnitsAbbreviation := ua }
      | _, _, _, _, _, _ => none
  | _ => none

/-- Element-wise decoding of the outer `Items` array of a nested
payload. -/
def decodeSubItemList : List JSON → Option (List PiBatchSubItem)
  | [] => some []
  | x :: xs =>
      match decodeSubItem x, decodeSubItemList xs with
      | some i, some is => some (i :: is)
      | _, _ => none

/-- Decoding `Content` into the Go struct `PiBatchDataWithoutSubItems`
(fields `Links`, `Items`, `UnitsAbbreviation`). -/
def decodeWithoutSubItems (content : List (String × JSON)) :
    Option (List PiBatchContentItem × String) := do
  let _ ← decodeMapField content "Links"
  let items ← decodeItemsField content
  let ua ← decodeStringField content "UnitsAbbreviation"
  pure (items, ua)

/-- Decoding the outer `Items` field of a nested payload into a list of
sub-items. -/
def decodeSubItemsField (content : List (String × JSON)) : Option (List PiBatchSubItem) :=
  match lookupJ content "Items" with
  | none => some []
  | some .null => some []
  | some (.arr xs) => decodeSubItemList xs
  | some _ => none

/-- Decoding `Content` into the Go struct `PiBatchDataWithSubItems`
(fields `Links`, `Items` of sub-items, `Error`). -/
def decodeWithSubItems (content : List (String × JSON)) :
    Option (List PiBatchSubItem × Option String) := do
  let _ ← decodeMapField content "Links"
  let items ← decodeSubItemsField content
  let errField ← decodeStringPtrField content "Error"
  pure (items, errField)

/-- Decoding `Content` into the Go struct `ErrorResponse` (a single
`Errors []string` field): missing or `null` gives the nil slice, an
array must contain strings (a `null` element decodes to `""`). -/
def decodeErrorStringList : List JSON → Option (List String)
  | [] => some []
  | .str s :: xs => (decodeErrorStringList xs).map (fun r => s :: r)
  | .null :: xs => (decodeErrorStringList xs).map (fun r => "" :: r)
  | _ => none

/-- Decoding of the non-200 `Content` payload as an `ErrorResponse`. -/
def decodeErrorResponse (content : List (String × JSON)) : Option (List String) :=
  match lookupJ content "Errors" with
  | none => some []
  | some .null => some []
  | some (.arr xs) => decodeErrorStringList xs
  | some _ => none

/-- The closed three-variant classification of a batch sub-response
payload: the Go interface `PiBatchData` with its three implementations
`PiBatchDataError`, `PiBatchDataWithSubItems` and
`PiBatchDataWithoutSubItems`. -/
inductive PiBatchData where
  | error (errs : List String) : PiBatchData
  | withSubItems (items : List PiBatchSubItem) (errField : Option String) : PiBatchData
  | withoutSubItems (items : List PiBatchContentItem) (unitsAbbreviation : String) : PiBatchData

/-- The `getUnits` method of the three `PiBatchData` implementations.
`none` models the runtime fault of `p.Items[0]` on an empty nested items
list. -/
def PiBatchData.getUnits : PiBatchData → Option String
  | .error _ => some ""
  | .withSubItems items _ => items.head?.map (fun i => i.UnitsAbbreviation)
  | .withoutSubItems _ ua => some ua

/-- The `getItems` method of the three `PiBatchData` implementations.
`none` models the runtime fault of `p.Items[0]` on an empty nested items
list. -/
def PiBatchData.getItems : PiBatchData → Option (List PiBatchContentItem)
  | .error _ => some []
  | .withSubItems items _ => items.head?.map (fun i => i.Items)
  | .withoutSubItems items _ => some items

/-- Holds exactly on the nested (`PiBatchDataWithSubItems`) variant. -/
def PiBatchData.isNested : PiBatchData → Bool
  | .withSubItems _ _ => true
  | _ => false

/-- The Go check `item["WebId"].(string)`: the first items element has a
`WebId` key holding a string. -/
def hasStringWebId (fields : List (String × JSON)) : Bool :=
  match lookupJ fields "WebId" with
  | some (.str _) => true
  | _ => false

/-- Result of `PIBatchResponse.UnmarshalJSON`: `fail` is a non-nil error
returned to the caller, `outOfRange` is the runtime fault of `items[0]`
on an empty `Items` array, `ok` sets `p.Content` and returns nil. -/
inductive UnmarshalOutcome where
  | fail : UnmarshalOutcome
  | outOfRange : UnmarshalOutcome
  | ok (content : PiBatchData) : UnmarshalOutcome

/-- The generic classification failure message of the Go source. -/
def couldNotProcessMsg : List String := ["Could not process response from PI Web API"]

/-- The object case of `PIBatchResponse.UnmarshalJSON`: require an
object-valued `Content`, branch on the status, and classify by
inspecting `Content.Items[0]` for a string `WebId`. -/
def unmarshalObj (raw : List (String × JSON)) : UnmarshalOutcome :=
  match lookupJ raw "Content" with
  | some (.obj content) =>
      if getStatus raw ≠ 200 then
        match decodeErrorResponse content with
        | some errs => .ok (.error errs)
        | none => .fail
      else
        match lookupJ content "Items" with
        | some (.arr items) =>
            match items with
            | [] => .outOfRange
            | first :: _ =>
                match first with
                | .obj ffields =>
                    if hasStringWebId ffields then
                      match decodeWithSubItems content with
                      | some (subItems, errField) => .ok (.withSubItems subItems errField)
                      | none => .ok (.error couldNotProcessMsg)
                    else
                      match decodeWithoutSubItems content with
                      | some (flatItems, ua) => .ok (.withoutSubItems flatItems ua)
                      | none => .ok (.error couldNotProcessMsg)
                | _ => .ok (.error couldNotProcessMsg)
        | _ => .ok (.error couldNotProcessMsg)
  | _ => .fail

/-- Direct translation of `PIBatchResponse.UnmarshalJSON`: a body that
does not decode to a JSON object makes the unmarshal return an error;
an object body is classified by `unmarshalObj`. -/
def unmarshalPIBatchResponse : JSON → UnmarshalOutcome
  | .obj raw => unmarshalObj raw
  | _ => .fail

/-- The string `s` begins with `p`. -/
def strStartsWith (s p : String) : Prop := ∃ t : String, s = p ++ t

/-- The string `m` occurs as a contiguous substring of `s`. -/
def strContains (s m : String) : Prop := ∃ a b : String, s = a ++ m ++ b

/-- Splitting a character list at every occurrence of the separator
character; the semantics of Go `strings.Split` for a one-character
separator (an empty input yields one empty field). -/
def splitCharList (c : Char) : List Char → List (List Char)
  | [] => [[]]
  | x :: xs =>
    match splitCharList c xs with
    | [] => [[]]
    | h :: t => if x = c then [] :: h :: t else (x :: h) :: t

/-- Go `strings.Index(s, string(c))` for a one-character pattern: the
index of the first occurrence, or `-1` when absent. -/
def goStringIndex (s : String) (c : Char) : Int :=
  match s.data.findIdx? (fun x => x = c) with
  | some n => (n : Int)
  | none => -1

/-- Go slicing `s[:i]`: defined only for `0 ≤ i ≤ len(s)`, otherwise the
program faults with a slice-bounds panic (modelled as `none`). -/
def goSliceUpTo (s : String) (i : Int) : Option String :=
  if 0 ≤ i ∧ i ≤ (s.data.length : Int) then some ⟨s.data.take i.toNat⟩ else none

/-- Go slicing `s[i:]`: defined only for `0 ≤ i ≤ len(s)`, otherwise the
program faults with a slice-bounds panic (modelled as `none`). -/
def goSliceFrom (s : String) (i : Int) : Option String :=
  if 0 ≤ i ∧ i ≤ (s.data.length : Int) then some ⟨s.data.drop i.toNat⟩ else none

/-- Go `strings.Split(s, ";")`. -/
def goSplitSemi (s : String) : List String :=
  (splitCharList ';' s.data).map (fun l => ⟨l⟩)

/-- A civil UTC time with whole seconds: the result of `t.UTC()` on the
Go side.  The conversion from an instant to UTC fields happens inside
the Go time library and is outside the embedded code, so time-range
inputs are modelled directly by their UTC rendering fields. -/
structure GoTime where
  year : Nat
  month : Nat
  day : Nat
  hour : Nat
  minute : Nat
  second : Nat

/-- Zero-padded two-digit rendering of a numeric time field. -/
def pad2 (n : Nat) : String := if n < 10 then "0" ++ toString n else toString n

/-- Zero-padded four-digit rendering of a year. -/
def pad4 (n : Nat) : String :=
  if n < 10 then "000" ++ toString n
  else if n < 100 then "00" ++ toString n
  else if n < 1000 then "0" ++ toString n
  else toString n

/-- Go `t.Format(time.RFC3339)` of a UTC time with whole seconds. -/
def rfc3339UTC (t : GoTime) : String :=
  pad4 t.year ++ "-" ++ pad2 t.month ++ "-" ++ pad2 t.day ++ "T" ++
  pad2 t.hour ++ ":" ++ pad2 t.minute ++ ":" ++ pad2 t.second ++ "Z"

/-- The bytes of the UTF-8 encoding of one character. -/
def utf8Bytes (c : Char) : List Nat :=
  let n := c.toNat
  if n < 128 then [n]
  else if n < 2048 then [192 + n / 64, 128 + n % 64]
  else if n < 65536 then [224 + n / 4096, 128 + (n / 64) % 64, 128 + n % 64]
  else [240 + n / 262144, 128 + (n / 4096) % 64, 128 + (n / 64) % 64, 128 + n % 64]

/-- Uppercase hexadecimal digit. -/
def hexDigitUpper (n : Nat) : Char :=
  if n < 10 then Char.ofNat (48 + n) else Char.ofNat (55 + n)

/-- Percent-escaping of one byte. -/
def escapeByte (b : Nat) : List Char :=
  ['%', hexDigitUpper (b / 16), hexDigitUpper (b % 16)]

/-- The characters Go `url.QueryEscape` leaves unescaped: ASCII
alphanumerics and `-._~`. -/
def isQueryUnreserved (c : Char) : Bool :=
  c.isAlphanum || c = '-' || c = '_' || c = '.' || c = '~'

/-- Go `url.QueryEscape`: unreserved bytes pass through, a space becomes
`+`, and every other byte of the UTF-8 encoding becomes `%XX` with
uppercase hexadecimal digits. -/
def queryEscape (s : String) : String :=
  ⟨(s.data.map (fun c =>
      if isQueryUnreserved c then [c]
      else if c = ' ' then ['+']
      else (utf8Bytes c).map escapeByte |>.flatten)).flatten⟩

/-- A one-field `\x7benable bool\x7d` JSON option wrapper. -/
structure EnableWrapper where
  Enable : Bool

/-- The `recordedValues` option wrapper. -/
structure RecordedValuesWrapper where
  Enable : Bool
  MaxNumber : Int

/-- The value carried by one selected summary type. -/
structure SummaryTYpeValue where
  Expandable : Bool
  Value : String

/-- One selected summary type. -/
structure SummaryType where
  Label : String
  Value : SummaryTYpeValue

/-- The summary configuration of a query. -/
structure QuerySummary where
  Basis : String
  Interval : String
  Nodata : String
  Types : List SummaryType

/-- The nested query payload `PIWebAPIQuery`.  UI-only fields
(`attributes`, `segments`, `datasource`, `hide`, `elementPath`,
`digitalStates`, `refId`) are not read by the embedded functions and are
omitted. -/
structure PIWebAPIQuery where
  EnableStreaming : EnableWrapper
  Expression : String
  Interpolate : EnableWrapper
  IntervalMs : Int
  IsPiPoint : Bool
  MaxDataPoints : Int
  RecordedValues : RecordedValuesWrapper
  Regex : EnableWrapper
  Summary : QuerySummary
  Target : String

/-- The time range of a query. -/
structure QueryTimeRange where
  From : GoTime
  To : GoTime

/-- The outer query envelope `Query`.  The JSON round trip performed at
the top of `processQuery` is the identity on this decoded form and is
not modelled. -/
structure Query where
  RefID : String
  QueryType : String
  MaxDataPoints : Int
  Interval : Int
  TimeRange : QueryTimeRange
  Pi : PIWebAPIQuery

/-- Go `Query.getIntervalTime`. -/
def Query.getIntervalTime (q : Query) : Int :=
  if q.Pi.IntervalMs = 0 then q.Interval else q.Pi.IntervalMs

/-- Go `Query.getTimeRangeURIComponent`. -/
def Query.getTimeRangeURIComponent (q : Query) : String :=
  "?startTime=" ++ rfc3339UTC q.TimeRange.From ++ "&endTime=" ++ rfc3339UTC q.TimeRange.To

/-- Go `Query.streamingEnabled`. -/
def Query.streamingEnabled (q : Query) : Bool := q.Pi.EnableStreaming.Enable

/-- Go `PIWebAPIQuery.isSummary`. -/
def PIWebAPIQuery.isSummary (q : PIWebAPIQuery) : Bool :=
  q.Summary.Basis != "" && q.Summary.Types.length > 0

/-- Go `PIWebAPIQuery.getSummaryDuration`. -/
def PIWebAPIQuery.getSummaryDuration (q : PIWebAPIQuery) : String :=
  if q.Summary.Interval = "" then "30s" else q.Summary.Interval

/-- Go `PIWebAPIQuery.isRecordedValues`. -/
def PIWebAPIQuery.isRecordedValues (q : PIWebAPIQuery) : Bool := q.RecordedValues.Enable

/-- Go `PIWebAPIQuery.isInterpolated`. -/
def PIWebAPIQuery.isInterpolated (q : PIWebAPIQuery) : Bool := q.Interpolate.Enable

/-- Go `PIWebAPIQuery.isRegex`. -/
def PIWebAPIQuery.isRegex (q : PIWebAPIQuery) : Bool := q.Regex.Enable

/-- Go `PIWebAPIQuery.isExpression`. -/
def PIWebAPIQuery.isExpression (q : PIWebAPIQuery) : Bool := q.Expression != ""

/-- Go `Query.isStreamable`. -/
def Query.isStreamable (q : Query) : Bool := !q.Pi.isExpression && q.streamingEnabled

/-- Go `PIWebAPIQuery.getSummaryURIComponent`. -/
def PIWebAPIQuery.getSummaryURIComponent (q : PIWebAPIQuery) : String :=
  if !q.isExpression then
    String.join (q.Summary.Types.map (fun t => "&summaryType=" ++ t.Value.Value))
    ++ "&summaryBasis=" ++ q.Summary.Basis
    ++ "&summaryDuration=" ++ q.getSummaryDuration
  else ""

/-- Go `PIWebAPIQuery.getBasePath`, the slice `q.Target[:strings.Index(q.Target, ";")]`.
`none` models the slice-bounds fault on a target with no semicolon,
where `strings.Index` returns `-1`. -/
def PIWebAPIQuery.getBasePath (q : PIWebAPIQuery) : Option String :=
  goSliceUpTo q.Target (goStringIndex q.Target ';')

/-- Go `PIWebAPIQuery.getTargets`:
`strings.Split(q.Target[strings.Index(q.Target, ";")+1:], ";")`. -/
def PIWebAPIQuery.getTargets (q : PIWebAPIQuery) : Option (List String) :=
  (goSliceFrom q.Target (goStringIndex q.Target ';' + 1)).map goSplitSemi

/-- Go `Query.getMaxDataPoints`. -/
def Query.getMaxDataPoints (q : Query) : Int :=
  if q.Pi.MaxDataPoints = 0 then q.MaxDataPoints else q.Pi.MaxDataPoints

/-- Go `Query.getQueryBaseURL`: the URI builder. -/
def Query.getQueryBaseURL (q : Query) : String :=
  if q.Pi.isExpression then
    "/calculation" ++
    (if q.Pi.isSummary then
       "/summary" ++ q.getTimeRangeURIComponent ++
       (if q.Pi.isInterpolated then
          "&sampleType=Interval&sampleInterval=" ++ toString q.getIntervalTime ++ "ms"
        else "")
     else
       "/intervals" ++ q.getTimeRangeURIComponent ++
       "&sampleInterval=" ++ toString q.getIntervalTime ++ "ms")
    ++ "&expression=" ++ queryEscape q.Pi.Expression
  else
    "/streamsets" ++
    (if q.Pi.isSummary then
       "/summary" ++ q.getTimeRangeURIComponent ++ "&intervals=" ++ toString q.getMaxDataPoints
       ++ q.Pi.getSummaryURIComponent
     else if q.Pi.isInterpolated then
       "/interpolated" ++ q.getTimeRangeURIComponent ++ "&interval=" ++ toString q.getIntervalTime
     else if q.Pi.isRecordedValues then
       "/recorded" ++ q.getTimeRangeURIComponent ++ "&maxCount=" ++ toString q.getMaxDataPoints
     else
       "/plot" ++ q.getTimeRangeURIComponent ++ "&intervals=" ++ toString q.getMaxDataPoints)

/-- One sub-request of a batch call. -/
structure BatchSubRequest where
  Method : String
  Resource : String

/-- One processed query (`PiProcessedQuery`).  `Response` is the
`PiBatchData` interface field: `none` models the nil interface value it
holds until a batch response is assigned to it. -/
structure PiProcessedQuery where
  Label : String
  WebID : String
  UID : String
  IntervalNanoSeconds : Int
  IsPIPoint : Bool
  Streamable : Bool
  FullTargetPath : String
  BatchRequest : BatchSubRequest
  Response : Option PiBatchData

/-- The body of the target loop of `Datasource.processQuery`: walk the
expanded target list, compute the full path from the base path, resolve
a WebID through the oracle `resolve` (the external `d.getWebID`
collaborator), skip the segment on a resolution error, and otherwise
emit one `PiProcessedQuery` with its batch sub-request.  `none` models
the slice-bounds fault of `getBasePath` on a target with no
semicolon. -/
def processTargets (resolve : String → Bool → Option String) (q : Query)
    (uid dsURL : String) : List String → Option (List PiProcessedQuery)
  | [] => some []
  | target :: rest => do
      let basePath ← q.Pi.getBasePath
      let fullTargetPath :=
        if q.Pi.IsPiPoint then basePath ++ "\\" ++ target else basePath ++ "|" ++ target
      let tail ← processTargets resolve q uid dsURL rest
      match resolve fullTargetPath q.Pi.IsPiPoint with
      | none => pure tail
      | some webID =>
          pure ({ Label := target, WebID := webID, UID := uid,
                  IntervalNanoSeconds := q.Interval, IsPIPoint := q.Pi.IsPiPoint,
                  Streamable := q.isStreamable, FullTargetPath := fullTargetPath,
                  BatchRequest := { Method := "GET",
                                    Resource := dsURL ++ q.getQueryBaseURL ++ "&webid=" ++ webID },
                  Response := none } :: tail)

/-- Go `Datasource.processQuery`: expand the target and process every
segment.  The JSON re-marshal round trip at the top of the Go function
is the identity on the decoded `Query` and is not modelled. -/
def Datasource.processQuery (resolve : String → Bool → Option String) (q : Query)
    (uid dsURL : String) : Option (List PiProcessedQuery) := do
  let targets ← q.Pi.getTargets
  processTargets resolve q uid dsURL targets

/-- The observable outcome of one `apiBatchRequest` round plus the
decode of its body into `map[int]PIBatchResponse`: the send can fail,
the decode can fail, or each sub-request index is mapped to the
`Content` classification of the sub-response at that index (`none` for
an index missing from the decoded map, whose zero-value
`PIBatchResponse` carries a nil `Content`). -/
inductive BatchCallOutcome where
  | sendFailure : BatchCallOutcome
  | decodeFailure : BatchCallOutcome
  | ok (contentAt : Nat → Option PiBatchData) : BatchCallOutcome

/-- Go `Datasource.batchRequest`: for each RefID build the index-keyed
sub-request map, call the batch API through the oracle `api`, and on
success write each decoded `Content` back onto the processed query at
the same index; on a send or decode failure log and continue, leaving
every processed query of that RefID untouched. -/
def Datasource.batchRequest (api : String → List (Nat × BatchSubRequest) → BatchCallOutcome)
    (processedQuery : List (String × List PiProcessedQuery)) :
    List (String × List PiProcessedQuery) :=
  processedQuery.map (fun entry =>
    match api entry.1 (entry.2.enum.map (fun ip => (ip.1, ip.2.BatchRequest))) with
    | .sendFailure => entry
    | .decodeFailure => entry
    | .ok contentAt =>
        (entry.1, entry.2.enum.map (fun ip => { ip.2 with Response := contentAt ip.1 })))

/-- The channel bookkeeping entry stored by the frame assembler for a
streamable query. -/
structure StreamChannelConstruct where
  WebID : String
  IntervalNanoSeconds : Int

/-- The external collaborators used by `processBatchtoFrames`:
`getTypeForWebID`, `getDigitalStateforWebID`, and the error result of
`convertItemsToDataFrame` (the produced frame payload itself is not inspected
by the embedded control flow). -/
structure DataFrameOracles where
  getTypeForWebID : String → String
  getDigitalStateforWebID : String → Bool
  convertError : String → List PiBatchContentItem → String → Bool → Bool

/-- The observable fields of one emitted data frame. -/
structure Frame where
  Name : String
  RefID : String
  ExecutedQueryString : String
  Channel : Option String
  ConvError : Bool

/-- One iteration of the inner loop of `Datasource.processBatchtoFrames`:
build the frame for one processed query, and mint a streaming channel
when the query is streamable and conversion succeeded.  `none` models
the runtime fault of calling `q.Response.getItems()` on a nil `Response`
interface (or of `getItems` itself on an empty nested items list). -/
def frameForQuery (o : DataFrameOracles) (uuid refID : String) (q : PiProcessedQuery) :
    Option (Frame × Option (String × StreamChannelConstruct)) :=
  match q.Response with
  | none => none
  | some content =>
      match content.getItems with
      | none => none
      | some items =>
          let ty := o.getTypeForWebID q.WebID
          let ds := o.getDigitalStateforWebID q.WebID
          let isErr := o.convertError q.Label items ty ds
          let frame : Frame :=
            { Name := q.Label, RefID := refID,
              ExecutedQueryString := q.BatchRequest.Resource,
              Channel := none, ConvError := isErr }
          if isErr then some (frame, none)
          else if q.Streamable then
            some ({ frame with Channel := some ("ds/" ++ q.UID ++ "/" ++ uuid) },
                  some (uuid, { WebID := q.WebID, IntervalNanoSeconds := q.IntervalNanoSeconds }))
          else some (frame, none)

/-- The inner loop of `Datasource.processBatchtoFrames` over the
processed queries of one RefID, threading the uuid supply `uuids` and
collecting minted channels. -/
def framesForRefID (o : DataFrameOracles) (uuids : Nat → String) (refID : String) :
    Nat → List PiProcessedQuery →
    Option (List Frame × List (String × StreamChannelConstruct) × Nat)
  | k, [] => some ([], [], k)
  | k, q :: rest => do
      let (frame, mint) ← frameForQuery o (uuids k) refID q
      let (frames, mints, k2) ← framesForRefID o uuids refID (k + 1) rest
      pure (frame :: frames,
            (match mint with | some m => m :: mints | none => mints), k2)

/-- Go `Datasource.processBatchtoFrames`: assemble the per-RefID frame
lists and the streaming-channel registry additions.  `none` models a
runtime fault inside the loop. -/
def Datasource.processBatchtoFrames (o : DataFrameOracles) (uuids : Nat → String)
    (processedQuery : List (String × List PiProcessedQuery)) :
    Option (List (String × List Frame) × List (String × StreamChannelConstruct)) := do
  let folded ← processedQuery.foldlM
    (fun (acc : List (String × List Frame) × List (String × StreamChannelConstruct) × Nat) entry => do
      let (frames, mints, k2) ← framesForRefID o uuids entry.1 acc.2.2 entry.2
      pure (acc.1 ++ [(entry.1, frames)], acc.2.1 ++ mints, k2))
    ([], [], 0)
  pure (folded.1, folded.2.1)

/-- Processing of every incoming query of one `QueryData` request into
the RefID-keyed processed-query map. -/
def processAllQueries (resolve : String → Bool → Option String)
    (uid dsURL : String) : List Query → Option (List (String × List PiProcessedQuery))
  | [] => some []
  | q :: rest => do
      let pqs ← Datasource.processQuery resolve q uid dsURL
      let tail ← processAllQueries resolve uid dsURL rest
      pure ((q.RefID, pqs) :: tail)

/-- Go `Datasource.QueryData`: the top-level pipeline, processing the
queries, executing the batch calls and assembling the frames.  `none`
models a runtime fault anywhere in the pipeline. -/
def Datasource.QueryData (resolve : String → Bool → Option String)
    (api : String → List (Nat × BatchSubRequest) → BatchCallOutcome)
    (o : DataFrameOracles) (uuids : Nat → String)
    (queries : List Query) (uid dsURL : String) :
    Option (List (String × List Frame) × List (String × StreamChannelConstruct)) := do
  let processed ← processAllQueries resolve uid dsURL queries
  let afterBatch := Datasource.batchRequest api processed
  Datasource.processBatchtoFrames o uuids afterBatch

lemma unmarshal_non200_ok (raw content : List (String × JSON))
    (hC : lookupJ raw "Content" = some (.obj content))
    (hs : getStatus raw ≠ 200) (errs : List String)
    (he : decodeErrorResponse content = some errs) :
    unmarshalPIBatchResponse (.obj raw) = .ok (.error errs) := by
  simp only [unmarshalPIBatchResponse]
  unfold unmarshalObj
  rw [hC]
  simp [hs, he]

lemma unmarshal_non200_fail (raw content : List (String × JSON))
    (hC : lookupJ raw "Content" = some (.obj content))
    (hs : getStatus raw ≠ 200)
    (he : decodeErrorResponse content = none) :
    unmarshalPIBatchResponse (.obj raw) = .fail := by
  simp only [unmarshalPIBatchResponse]
  unfold unmarshalObj
  rw [hC]
  simp [hs, he]

lemma unmarshal_200_items_missing (raw content : List (String × JSON))
    (hC : lookupJ raw "Content" = some (.obj content))
    (hs : getStatus raw = 200)
    (hi : lookupJ content "Items" = none) :
    unmarshalPIBatchResponse (.obj raw) = .ok (.error couldNotProcessMsg) := by
  simp only [unmarshalPIBatchResponse]
  unfold unmarshalObj
  rw [hC]
  simp [hs, hi]

lemma unmarshal_200_items_not_array (raw content : List (String × JSON))
    (hC : lookupJ raw "Content" = some (.obj content))
    (hs : getStatus raw = 200) (j : JSON)
    (hi : lookupJ content "Items" = some j) (hj : j.isArr = false) :
    unmarshalPIBatchResponse (.obj raw) = .ok (.error couldNotProcessMsg) := by
  simp only [unmarshalPIBatchResponse]
  unfold unmarshalObj
  rw [hC]
  cases j <;> simp_all [JSON.isArr]

lemma unmarshal_200_first_not_obj (raw content : List (String × JSON))
    (hC : lookupJ raw "Content" = some (.obj content))
    (hs : getStatus raw = 200) (first : JSON) (rest : List JSON)
    (hi : lookupJ content "Items" = some (.arr (first :: rest)))
    (hf : first.isObj = false) :
    unmarshalPIBatchResponse (.obj raw) = .ok (.error couldNotProcessMsg) := by
  simp only [unmarshalPIBatchResponse]
  unfold unmarshalObj
  rw [hC]
  cases first <;> simp_all [JSON.isObj]

lemma unmarshal_200_flat (raw content : List (String × JSON))
    (hC : lookupJ raw "Content" = some (.obj content))
    (hs : getStatus raw = 200) (ffields : List (String × JSON)) (rest : List JSON)
    (hi : lookupJ content "Items" = some (.arr (.obj ffields :: rest)))
    (hw : hasStringWebId ffields = false) :
    unmarshalPIBatchResponse (.obj raw) =
      (match decodeWithoutSubItems content with
       | some (flatItems, ua) => .ok (.withoutSubItems flatItems ua)
       | none => .ok (.error couldNotProcessMsg)) := by
  simp only [unmarshalPIBatchResponse]
  unfold unmarshalObj
  rw [hC]
  simp [hs, hi, hw]

lemma unmarshal_200_nested (raw content : List (String × JSON))
    (hC : lookupJ raw "Content" = some (.obj content))
    (hs : getStatus raw = 200) (ffields : List (String × JSON)) (rest : List JSON)
    (hi : lookupJ content "Items" = some (.arr (.obj ffields :: rest)))
    (hw : hasStringWebId ffields = true) :
    unmarshalPIBatchResponse (.obj raw) =
      (match decodeWithSubItems content with
       | some (subItems, errField) => .ok (.withSubItems subItems errField)
       | none => .ok (.error couldNotProcessMsg)) := by
  simp only [unmarshalPIBatchResponse]
  unfold unmarshalObj
  rw [hC]
  simp [hs, hi, hw]

lemma decodeSubItemList_length (xs : List JSON) (ys : List PiBatchSubItem)
    (h : decodeSubItemList xs = some ys) : ys.length = xs.length := by
  induction xs generalizing ys with
  | nil => simp [decodeSubItemList] at h; simp [← h]
  | cons x xs ih =>
      unfold decodeSubItemList at h
      cases hx : decodeSubItem x with
      | none => rw [hx] at h; simp at h
      | some i =>
          cases hxs : decodeSubItemList xs with
          | none => rw [hx, hxs] at h; simp at h
          | some is =>
              rw [hx, hxs] at h
              simp at h
              subst h
              simp [ih is hxs]

/-- A concrete sub-response body: HTTP status 200, and `Content.Items[0]`
carries a `WebId` field whose value is the number `7`. -/
def webIdNumberBody : JSON :=
  .obj [("Status", .num 200),
        ("Content", .obj [("Items", .arr [.obj [("WebId", .num 7)]])])]

/-- C2, counterexample: the claim states that whenever `Content.Items[0]`
has a `WebId` field the classification is the NestedItems variant.  In
`webIdNumberBody` the status is 200 and `Items[0]` has a `WebId` field,
yet the Go type assertion `item["WebId"].(string)` fails on the numeric
value, so the classifier yields the FlatItems
(`PiBatchDataWithoutSubItems`) variant, not the NestedItems one. -/
theorem c2_counterexample :
    getStatus [("Status", .num 200),
               ("Content", .obj [("Items", .arr [.obj [("WebId", .num 7)]])])] = 200 ∧
    (lookupJ [("WebId", JSON.num 7)] "WebId").isSome = true ∧
    unmarshalPIBatchResponse webIdNumberBody = .ok (.withoutSubItems [zeroContentItem] "") ∧
    PiBatchData.isNested (.withoutSubItems [zeroContentItem] "") = false :=
  ⟨rfl, rfl, rfl, rfl⟩

/-- C2, amended: classification of every sub-response body that is a
JSON object with an object-valued `Content`.  A non-200 status yields
the Error variant (units view empty, item list empty) when `Content`
decodes as an error list, and a decode failure of the unmarshal
otherwise; with status 200, a missing or non-array `Items`, a
non-object first element, or a failing typed decode yields the Error
variant with the generic could-not-process message; a first element
without a string-valued `WebId` yields the FlatItems variant carrying
`Content.Items` and `Content.UnitsAbbreviation`; a first element with a
string-valued `WebId` yields the NestedItems variant whose views are
`Content.Items[0].Items` and `Content.Items[0].UnitsAbbreviation`. -/
theorem c2_amended_classification (body : JSON) (raw content : List (String × JSON))
    (hbody : body = .obj raw)
    (hC : lookupJ raw "Content" = some (.obj content)) :
    (getStatus raw ≠ 200 →
      (∀ errs, decodeErrorResponse content = some errs →
        unmarshalPIBatchResponse body = .ok (.error errs) ∧
        PiBatchData.getUnits (.error errs) = some "" ∧
        PiBatchData.getItems (.error errs) = some []) ∧
      (decodeErrorResponse content = none → unmarshalPIBatchResponse body = .fail)) ∧
    (getStatus raw = 200 →
      (lookupJ content "Items" = none →
        unmarshalPIBatchResponse body = .ok (.error couldNotProcessMsg)) ∧
      (∀ j, lookupJ content "Items" = some j → j.isArr = false →
        unmarshalPIBatchResponse body = .ok (.error couldNotProcessMsg)) ∧
      (∀ first rest, lookupJ content "Items" = some (.arr (first :: rest)) →
        first.isObj = false →
        unmarshalPIBatchResponse body = .ok (.error couldNotProcessMsg)) ∧
      (∀ ffields rest, lookupJ content "Items" = some (.arr (.obj ffields :: rest)) →
        (hasStringWebId ffields = false →
          (∀ flatItems ua, decodeWithoutSubItems content = some (flatItems, ua) →
            unmarshalPIBatchResponse body = .ok (.withoutSubItems flatItems ua) ∧
            PiBatchData.getItems (.withoutSubItems flatItems ua) = some flatItems ∧
            PiBatchData.getUnits (.withoutSubItems flatItems ua) = some ua) ∧
          (decodeWithoutSubItems content = none →
            unmarshalPIBatchResponse body = .ok (.error couldNotProcessMsg))) ∧
        (hasStringWebId ffields = true →
          (∀ subItems errField, decodeWithSubItems content = some (subItems, errField) →
            unmarshalPIBatchResponse body = .ok (.withSubItems subItems errField) ∧
            ∃ s0 srest, subItems = s0 :: srest ∧
              PiBatchData.getItems (.withSubItems subItems errField) = some s0.Items ∧
              PiBatchData.getUnits (.withSubItems subItems errField) = some s0.UnitsAbbreviation) ∧
          (decodeWithSubItems content = none →
            unmarshalPIBatchResponse body = .ok (.error couldNotProcessMsg))))) := by
  subst hbody
  refine ⟨fun hs => ⟨fun errs he => ⟨?_, rfl, rfl⟩, fun he => ?_⟩, fun hs => ⟨?_, ?_, ?_, ?_⟩⟩
  · exact unmarshal_non200_ok raw content hC hs errs he
  · exact unmarshal_non200_fail raw content hC hs he
  · exact fun hi => unmarshal_200_items_missing raw content hC hs hi
  · exact fun j hi hj => unmarshal_200_items_not_array raw content hC hs j hi hj
  · exact fun first rest hi hf => unmarshal_200_first_not_obj raw content hC hs first rest hi hf
  · intro ffields rest hi
    refine ⟨fun hw => ⟨fun flatItems ua hd => ⟨?_, rfl, rfl⟩, fun hd => ?_⟩,
            fun hw => ⟨fun subItems errField hd => ⟨?_, ?_⟩, fun hd => ?_⟩⟩
    · rw [unmarshal_200_flat raw content hC hs ffields rest hi hw, hd]
    · rw [unmarshal_200_flat raw content hC hs ffields rest hi hw, hd]
    · rw [unmarshal_200_nested raw content hC hs ffields rest hi hw, hd]
    · have hitems : decodeSubItemsField content = some subItems := by
        simp only [decodeWithSubItems, Option.bind_eq_bind, Option.pure_def,
          Option.bind_eq_some, Option.some.injEq, Prod.mk.injEq] at hd
        obtain ⟨u, hu, items2, hitems2, ef, hef, h1, h2⟩ := hd
        rw [hitems2, h1]
      have hlen : subItems.length = (JSON.obj ffields :: rest).length := by
        unfold decodeSubItemsField at hitems
        rw [hi] at hitems
        exact decodeSubItemList_length _ _ hitems
      cases subItems with
      | nil => simp at hlen
      | cons s0 srest =>
          exact ⟨s0, srest, rfl, rfl, rfl⟩
    · rw [unmarshal_200_nested raw content hC hs ffields rest hi hw, hd]

/-- The nested-payload scenario of the specification: status 200 with a
`WebId`-bearing first item whose inner `Items` hold one good value. -/
def nestedScenarioBody : JSON :=
  .obj [("Status", .num 200),
        ("Content", .obj [("Items", .arr [.obj
          [("UnitsAbbreviation", .str "psi"), ("WebId", .str "w1"),
           ("Items", .arr [.obj [("Timestamp", .str "2024-01-01T00:00:00Z"),
                                 ("Value", .num 12), ("Good", .bool true)]])]])])]

/-- The single decoded value item of `nestedScenarioBody`. -/
def nestedScenarioItem : PiBatchContentItem :=
  { Timestamp := "2024-01-01T00:00:00Z", Value := .num 12, UnitsAbbreviation := "",
    Good := true, Questionable := false, Substituted := false, Annotated := false }

/-- The single decoded sub-item of `nestedScenarioBody`. -/
def nestedScenarioSubItem : PiBatchSubItem :=
  { WebId := "w1", Name := "", Path := "", LinksSource := "",
    Items := [nestedScenarioItem], UnitsAbbreviation := "psi" }

/-- C2, witness: the amended classification theorem applied to the
concrete nested scenario body. -/
theorem c2_amended_classification_witness :
    unmarshalPIBatchResponse nestedScenarioBody = .ok (.withSubItems [nestedScenarioSubItem] none) ∧
    PiBatchData.getUnits (.withSubItems [nestedScenarioSubItem] none) = some "psi" := by
  have h := (c2_amended_classification nestedScenarioBody
    [("Status", .num 200),
     ("Content", .obj [("Items", .arr [.obj
       [("UnitsAbbreviation", .str "psi"), ("WebId", .str "w1"),
        ("Items", .arr [.obj [("Timestamp", .str "2024-01-01T00:00:00Z"),
                              ("Value", .num 12), ("Good", .bool true)]])]])])]
    [("Items", .arr [.obj
       [("UnitsAbbreviation", .str "psi"), ("WebId", .str "w1"),
        ("Items", .arr [.obj [("Timestamp", .str "2024-01-01T00:00:00Z"),
                              ("Value", .num 12), ("Good", .bool true)]])]])]
    rfl rfl).2 rfl
  have h2 := (((h.2.2.2
    [("UnitsAbbreviation", .str "psi"), ("WebId", .str "w1"),
     ("Items", .arr [.obj [("Timestamp", .str "2024-01-01T00:00:00Z"),
                           ("Value", .num 12), ("Good", .bool true)]])]
    [] rfl).2 rfl).1 [nestedScenarioSubItem] none rfl).1
  exact ⟨h2, rfl⟩

/-- A concrete sub-response body with status 200 and an empty
`Content.Items` array. -/
def emptyItemsBody : JSON :=
  .obj [("Status", .num 200), ("Content", .obj [("Items", .arr [])])]

/-- C8: on a status-200 sub-response whose `Content.Items` decodes to an
empty JSON array, `PIBatchResponse.UnmarshalJSON` evaluates `items[0]`
on an empty slice: the access is not guarded and the program faults with
an index-out-of-range panic instead of returning the generic Error
classification. -/
theorem c8_empty_items_out_of_range :
    unmarshalPIBatchResponse emptyItemsBody = .outOfRange := rfl

lemma strData_append (s t : String) : (s ++ t).data = s.data ++ t.data := by
  cases s; cases t; rfl

lemma strAppend_cancel_left (s t u : String) (h : s ++ t = s ++ u) : t = u := by
  apply String.ext
  have h2 := congrArg String.data h
  rw [strData_append, strData_append] at h2
  exact List.append_cancel_left h2

/-- The four mutually exclusive mode path components of the
non-expression branch of the URI builder. -/
def uriModes : List String := ["/summary", "/interpolated", "/recorded", "/plot"]

lemma take2_eq_of_append_eq (a b r t : String) (ha : 2 ≤ a.data.length)
    (hb : 2 ≤ b.data.length) (h : a ++ r = b ++ t) :
    a.data.take 2 = b.data.take 2 := by
  have h2 := congrArg String.data h
  rw [strData_append, strData_append] at h2
  have h3 := congrArg (List.take 2) h2
  rwa [List.take_append_of_le_length ha, List.take_append_of_le_length hb] at h3

lemma mode_append_inj (m m2 r t : String) (hm : m ∈ uriModes) (hm2 : m2 ∈ uriModes)
    (h : m ++ r = m2 ++ t) : m = m2 := by
  fin_cases hm <;> fin_cases hm2 <;>
    first
      | rfl
      | exact absurd (take2_eq_of_append_eq _ _ _ _ (by decide) (by decide) h) (by decide)

lemma startsWith_mode_unique (m m2 rest : String) (hm : m ∈ uriModes) (hm2 : m2 ∈ uriModes)
    (h : strStartsWith ("/streamsets" ++ m ++ rest) ("/streamsets" ++ m2)) : m2 = m := by
  obtain ⟨t, ht⟩ := h
  rw [String.append_assoc, String.append_assoc] at ht
  exact (mode_append_inj m m2 rest t hm hm2 (strAppend_cancel_left _ _ _ ht)).symm

lemma c4_branch (uri rest m : String) (hm : m ∈ uriModes)
    (huri : uri = "/streamsets" ++ m ++ rest) :
    strStartsWith uri ("/streamsets" ++ m) ∧
    (∀ m2, m2 ∈ uriModes → strStartsWith uri ("/streamsets" ++ m2) → m2 = m) := by
  subst huri
  exact ⟨⟨rest, rfl⟩, fun m2 hm2 hsw => startsWith_mode_unique m m2 rest hm hm2 hsw⟩

/-- C4: for every query without an expression, the built URI carries
exactly one of the path components `/summary`, `/interpolated`,
`/recorded`, `/plot` right after the `/streamsets` base, and that
component is selected by the precedence summary, then interpolated, then
recorded, with plot as the default. -/
theorem c4_mode_selection (q : Query) (h : q.Pi.isExpression = false) :
    ∃ m, m ∈ uriModes ∧
      strStartsWith q.getQueryBaseURL ("/streamsets" ++ m) ∧
      (∀ m2, m2 ∈ uriModes → strStartsWith q.getQueryBaseURL ("/streamsets" ++ m2) → m2 = m) ∧
      m = (if q.Pi.isSummary then "/summary"
           else if q.Pi.isInterpolated then "/interpolated"
           else if q.Pi.isRecordedValues then "/recorded" else "/plot") := by
  cases hsum : q.Pi.isSummary with
  | true =>
      obtain ⟨h1, h2⟩ := c4_branch q.getQueryBaseURL
        (q.getTimeRangeURIComponent ++
          ("&intervals=" ++ (toString q.getMaxDataPoints ++ q.Pi.getSummaryURIComponent)))
        "/summary" (by decide)
        (by simp [Query.getQueryBaseURL, h, hsum, String.append_assoc]; rw [← String.append_assoc]; rfl)
      exact ⟨"/summary", by decide, h1, h2, by simp [hsum]⟩
  | false =>
      cases hint : q.Pi.isInterpolated with
      | true =>
          obtain ⟨h1, h2⟩ := c4_branch q.getQueryBaseURL
            (q.getTimeRangeURIComponent ++ ("&interval=" ++ toString q.getIntervalTime))
            "/interpolated" (by decide)
            (by simp [Query.getQueryBaseURL, h, hsum, hint, String.append_assoc]; rw [← String.append_assoc]; rfl)
          exact ⟨"/interpolated", by decide, h1, h2, by simp [hsum, hint]⟩
      | false =>
          cases hrec : q.Pi.isRecordedValues with
          | true =>
              obtain ⟨h1, h2⟩ := c4_branch q.getQueryBaseURL
                (q.getTimeRangeURIComponent ++ ("&maxCount=" ++ toString q.getMaxDataPoints))
                "/recorded" (by decide)
                (by simp [Query.getQueryBaseURL, h, hsum, hint, hrec, String.append_assoc]; rw [← String.append_assoc]; rfl)
              exact ⟨"/recorded", by decide, h1, h2, by simp [hsum, hint, hrec]⟩
          | false =>
              obtain ⟨h1, h2⟩ := c4_branch q.getQueryBaseURL
                (q.getTimeRangeURIComponent ++ ("&intervals=" ++ toString q.getMaxDataPoints))
                "/plot" (by decide)
                (by simp [Query.getQueryBaseURL, h, hsum, hint, hrec, String.append_assoc]; rw [← String.append_assoc]; rfl)
              exact ⟨"/plot", by decide, h1, h2, by simp [hsum, hint, hrec]⟩

/-- C3: for every query with a non-empty expression and no summary
configuration, the built URI begins with `/calculation/intervals`,
contains the UTC RFC-3339 `startTime`/`endTime` pair, contains a
`sampleInterval` parameter in milliseconds whose value prefers the
query-specific override when non-zero and falls back to the outer
polling interval, and contains an `expression` parameter holding the
percent-escaped expression text. -/
theorem c3_expression_intervals_uri (q : Query) (h1 : q.Pi.Expression ≠ "")
    (h2 : q.Pi.isSummary = false) :
    strStartsWith q.getQueryBaseURL "/calculation/intervals" ∧
    strContains q.getQueryBaseURL
      ("?startTime=" ++ rfc3339UTC q.TimeRange.From ++ "&endTime=" ++
        rfc3339UTC q.TimeRange.To) ∧
    strContains q.getQueryBaseURL
      ("&sampleInterval=" ++ toString q.getIntervalTime ++ "ms") ∧
    q.getIntervalTime = (if q.Pi.IntervalMs ≠ 0 then q.Pi.IntervalMs else q.Interval) ∧
    strContains q.getQueryBaseURL ("&expression=" ++ queryEscape q.Pi.Expression) := by
  have hexp : q.Pi.isExpression = true := by
    simp [PIWebAPIQuery.isExpression, bne_iff_ne, h1]
  have huri : q.getQueryBaseURL =
      "/calculation/intervals" ++ (q.getTimeRangeURIComponent ++ ("&sampleInterval=" ++
        (toString q.getIntervalTime ++ ("ms&expression=" ++ queryEscape q.Pi.Expression)))) := by
    simp [Query.getQueryBaseURL, hexp, h2, String.append_assoc]
    rw [← String.append_assoc]
    rfl
  refine ⟨?_, ?_, ?_, ?_, ?_⟩
  · exact ⟨q.getTimeRangeURIComponent ++ ("&sampleInterval=" ++
      (toString q.getIntervalTime ++ ("ms&expression=" ++ queryEscape q.Pi.Expression))), huri⟩
  · refine ⟨"/calculation/intervals",
      "&sampleInterval=" ++ (toString q.getIntervalTime ++
        ("ms&expression=" ++ queryEscape q.Pi.Expression)), ?_⟩
    rw [huri]
    simp [Query.getTimeRangeURIComponent, String.append_assoc]
  · refine ⟨"/calculation/intervals" ++ q.getTimeRangeURIComponent,
      "&expression=" ++ queryEscape q.Pi.Expression, ?_⟩
    rw [huri]
    simp [String.append_assoc]
    rw [← String.append_assoc "ms" "&expression=" (queryEscape q.Pi.Expression)]
    rfl
  · by_cases hz : q.Pi.IntervalMs = 0 <;> simp [Query.getIntervalTime, hz]
  · refine ⟨"/calculation/intervals" ++ (q.getTimeRangeURIComponent ++
      ("&sampleInterval=" ++ (toString q.getIntervalTime ++ "ms"))), "", ?_⟩
    rw [huri]
    simp [String.append_assoc]
    rw [← String.append_assoc "ms" "&expression=" (queryEscape q.Pi.Expression)]
    rfl

/-- C6: the summary URI fragment consists of one `summaryType` parameter
per configured summary type in configuration order, then
`summaryBasis`, then `summaryDuration` defaulting to `30s` when the
summary interval is unset; and the fragment is produced only for
non-expression queries: for a query with a non-empty expression
`getSummaryURIComponent` is empty, and even with summary configured the
expression-branch URI consists only of the `/calculation/summary` path,
the time range, the optional `sampleType`/`sampleInterval` pair and the
escaped expression, never the `summaryType`/`summaryBasis`/
`summaryDuration` parameters. -/
theorem c6_summary_fragment (q : Query) :
    (q.Pi.isExpression = false →
      q.Pi.getSummaryURIComponent =
        String.join (q.Pi.Summary.Types.map (fun t => "&summaryType=" ++ t.Value.Value))
        ++ "&summaryBasis=" ++ q.Pi.Summary.Basis
        ++ "&summaryDuration=" ++
          (if q.Pi.Summary.Interval = "" then "30s" else q.Pi.Summary.Interval)) ∧
    (q.Pi.isExpression = true →
      q.Pi.getSummaryURIComponent = "" ∧
      (q.Pi.isSummary = true →
        q.getQueryBaseURL =
          "/calculation" ++ "/summary" ++ q.getTimeRangeURIComponent ++
          (if q.Pi.isInterpolated then
             "&sampleType=Interval&sampleInterval=" ++ toString q.getIntervalTime ++ "ms"
           else "") ++ "&expression=" ++ queryEscape q.Pi.Expression)) := by
  refine ⟨fun h => ?_, fun h => ⟨?_, fun hs => ?_⟩⟩
  · simp [PIWebAPIQuery.getSummaryURIComponent, PIWebAPIQuery.getSummaryDuration, h]
  · simp [PIWebAPIQuery.getSummaryURIComponent, h]
  · by_cases hi : q.Pi.isInterpolated = true
    · simp [Query.getQueryBaseURL, h, hs, hi, String.append_assoc]
      rw [← String.append_assoc]
      rfl
    · simp [Query.getQueryBaseURL, h, hs, hi, String.append_assoc]
      rw [← String.append_assoc]
      rfl

lemma processTargets_eq_filterMap (resolve : String → Bool → Option String) (q : Query)
    (uid dsURL basePath : String) (hb : q.Pi.getBasePath = some basePath) (ts : List String) :
    processTargets resolve q uid dsURL ts = some (ts.filterMap (fun target =>
      (resolve (if q.Pi.IsPiPoint then basePath ++ "\\" ++ target
                else basePath ++ "|" ++ target) q.Pi.IsPiPoint).map (fun webID =>
        { Label := target, WebID := webID, UID := uid,
          IntervalNanoSeconds := q.Interval, IsPIPoint := q.Pi.IsPiPoint,
          Streamable := q.isStreamable,
          FullTargetPath := (if q.Pi.IsPiPoint then basePath ++ "\\" ++ target
                             else basePath ++ "|" ++ target),
          BatchRequest := { Method := "GET",
                            Resource := dsURL ++ q.getQueryBaseURL ++ "&webid=" ++ webID },
          Response := none }))) := by
  induction ts with
  | nil => simp [processTargets]
  | cons t ts ih =>
      simp only [processTargets, hb, Option.some_bind, ih, List.filterMap_cons]
      cases hr : resolve (if q.Pi.IsPiPoint then basePath ++ "\\" ++ t
                          else basePath ++ "|" ++ t) q.Pi.IsPiPoint with
      | none => simp [hr]
      | some w => simp [hr]

lemma processTargets_isSome (resolve : String → Bool → Option String) (q : Query)
    (uid dsURL : String) (hb : q.Pi.getBasePath.isSome) (ts : List String) :
    (processTargets resolve q uid dsURL ts).isSome := by
  obtain ⟨basePath, hbp⟩ := Option.isSome_iff_exists.mp hb
  rw [processTargets_eq_filterMap resolve q uid dsURL basePath hbp ts]
  rfl

lemma processTargets_streamable (resolve : String → Bool → Option String) (q : Query)
    (uid dsURL basePath : String) (hb : q.Pi.getBasePath = some basePath)
    (ts : List String) (pqs : List PiProcessedQuery)
    (h : processTargets resolve q uid dsURL ts = some pqs) :
    ∀ p ∈ pqs, p.Streamable = q.isStreamable := by
  rw [processTargets_eq_filterMap resolve q uid dsURL basePath hb ts] at h
  obtain rfl : _ = pqs := Option.some.inj h
  intro p hp
  obtain ⟨target, _, hmap⟩ := List.mem_filterMap.mp hp
  obtain ⟨w, _, rfl⟩ := Option.map_eq_some'.mp hmap
  rfl

lemma findIdx_semi_of_mem (l : List Char) (h : ';' ∈ l) :
    ∃ n, l.findIdx? (fun x => x = ';') = some n ∧ n < l.length := by
  induction l with
  | nil => cases h
  | cons c cs ih =>
      by_cases hc : c = ';'
      · exact ⟨0, by simp [List.findIdx?, hc], by simp⟩
      · have hmem : ';' ∈ cs := by
          cases List.mem_cons.mp h with
          | inl h1 => exact absurd h1.symm hc
          | inr h2 => exact h2
        obtain ⟨n, hn, hlt⟩ := ih hmem
        refine ⟨n + 1, ?_, by simpa using Nat.succ_lt_succ hlt⟩
        rw [List.findIdx?_cons]
        simp [hc, List.findIdx?_succ, hn]

/-- C9: for every target string containing at least one semicolon, the
index of the first semicolon is a valid slice bound: `getBasePath` and
`getTargets` are both defined (no slice-bounds fault), and
`processQuery` completes without a fault for every query carrying such a
target, for every resolution oracle. -/
theorem c9_target_slicing_total (t : String) (h : ';' ∈ t.data) :
    (0 ≤ goStringIndex t ';' ∧ goStringIndex t ';' < (t.data.length : Int)) ∧
    (∀ pi2 : PIWebAPIQuery, pi2.Target = t →
      pi2.getBasePath.isSome ∧ pi2.getTargets.isSome) ∧
    (∀ (resolve : String → Bool → Option String) (q : Query) (uid dsURL : String),
      q.Pi.Target = t → (Datasource.processQuery resolve q uid dsURL).isSome) := by
  obtain ⟨n, hn, hlt⟩ := findIdx_semi_of_mem t.data h
  have hidx : goStringIndex t ';' = (n : Int) := by simp [goStringIndex, hn]
  have hbound : (0 ≤ goStringIndex t ';' ∧ goStringIndex t ';' < (t.data.length : Int)) := by
    rw [hidx]
    exact ⟨Int.ofNat_nonneg n, by exact_mod_cast hlt⟩
  have hbase : ∀ pi2 : PIWebAPIQuery, pi2.Target = t → pi2.getBasePath.isSome := by
    intro pi2 hp
    simp only [PIWebAPIQuery.getBasePath, hp, goSliceUpTo, hidx]
    rw [if_pos ⟨Int.ofNat_nonneg n, le_of_lt (by exact_mod_cast hlt)⟩]
    rfl
  refine ⟨hbound, fun pi2 hp => ⟨hbase pi2 hp, ?_⟩, fun resolve q uid dsURL hp => ?_⟩
  · simp only [PIWebAPIQuery.getTargets, hp, goSliceFrom, hidx]
    rw [if_pos ⟨by omega, by omega⟩]
    rfl
  · have ht : q.Pi.getTargets.isSome := by
      simp only [PIWebAPIQuery.getTargets, hp, goSliceFrom, hidx]
      rw [if_pos ⟨by omega, by omega⟩]
      rfl
    obtain ⟨ts, hts⟩ := Option.isSome_iff_exists.mp ht
    simp only [Datasource.processQuery, hts, Option.some_bind]
    exact processTargets_isSome resolve q uid dsURL (hbase q.Pi hp) ts

lemma filterMap_map_length {A B C : Type} (g : A → Option C) (f : A → C → B) (l : List A)
    (h : ∀ x ∈ l, (g x).isSome) :
    (l.filterMap (fun x => (g x).map (f x))).length = l.length := by
  induction l with
  | nil => rfl
  | cons x xs ih =>
      obtain ⟨w, hw⟩ := Option.isSome_iff_exists.mp (h x (List.mem_cons_self x xs))
      simp [List.filterMap_cons, hw, ih (fun y hy => h y (List.mem_cons_of_mem x hy))]

lemma filterMap_map_proj {A B C D : Type} (g : A → Option C) (f : A → C → B)
    (pr : B → D) (pf : A → D) (l : List A)
    (h : ∀ x ∈ l, (g x).isSome) (hpr : ∀ x w, pr (f x w) = pf x) :
    (l.filterMap (fun x => (g x).map (f x))).map pr = l.map pf := by
  induction l with
  | nil => rfl
  | cons x xs ih =>
      obtain ⟨w, hw⟩ := Option.isSome_iff_exists.mp (h x (List.mem_cons_self x xs))
      simp [List.filterMap_cons, hw, hpr,
        ih (fun y hy => h y (List.mem_cons_of_mem x hy))]

/-- C5: for every query whose target contains a semicolon and whose
segments all resolve, `processQuery` yields one `PiProcessedQuery` per
segment after the first semicolon, each with full target path equal to
the base path joined to the segment by a backslash for PI-point targets
and by a pipe otherwise. -/
theorem c5_target_expansion (resolve : String → Bool → Option String) (q : Query)
    (uid dsURL basePath : String) (targets : List String)
    (hb : q.Pi.getBasePath = some basePath)
    (ht : q.Pi.getTargets = some targets)
    (hres : ∀ tgt ∈ targets,
      (resolve (if q.Pi.IsPiPoint then basePath ++ "\\" ++ tgt
                else basePath ++ "|" ++ tgt) q.Pi.IsPiPoint).isSome) :
    ∃ pqs, Datasource.processQuery resolve q uid dsURL = some pqs ∧
      pqs.length = targets.length ∧
      pqs.map (fun p => p.FullTargetPath) =
        targets.map (fun tgt =>
          basePath ++ (if q.Pi.IsPiPoint then "\\" else "|") ++ tgt) := by
  have hchar := processTargets_eq_filterMap resolve q uid dsURL basePath hb targets
  refine ⟨targets.filterMap (fun target =>
      (resolve (if q.Pi.IsPiPoint then basePath ++ "\\" ++ target
                else basePath ++ "|" ++ target) q.Pi.IsPiPoint).map (fun webID =>
        { Label := target, WebID := webID, UID := uid,
          IntervalNanoSeconds := q.Interval, IsPIPoint := q.Pi.IsPiPoint,
          Streamable := q.isStreamable,
          FullTargetPath := (if q.Pi.IsPiPoint then basePath ++ "\\" ++ target
                             else basePath ++ "|" ++ target),
          BatchRequest := { Method := "GET",
                            Resource := dsURL ++ q.getQueryBaseURL ++ "&webid=" ++ webID },
          Response := none })), ?_, ?_, ?_⟩
  · simp only [Datasource.processQuery, ht, Option.some_bind]
    exact hchar
  · exact filterMap_map_length _ _ targets hres
  · refine filterMap_map_proj _ _ _ _ targets hres ?_
    intro tgt w
    by_cases hp : q.Pi.IsPiPoint <;> simp [hp, String.append_assoc]

/-- C7: when WebID resolution fails for some path segments of a query,
exactly those segments are dropped: `processQuery` returns the
list obtained by keeping, in order, one entry with its batch sub-request
for every segment the oracle resolves, and nothing for the segments on
which it fails, so sibling segments of the same query are unaffected. -/
theorem c7_segment_failure_isolated (resolve : String → Bool → Option String) (q : Query)
    (uid dsURL basePath : String) (targets : List String)
    (hb : q.Pi.getBasePath = some basePath)
    (ht : q.Pi.getTargets = some targets) :
    Datasource.processQuery resolve q uid dsURL = some (targets.filterMap (fun target =>
      (resolve (if q.Pi.IsPiPoint then basePath ++ "\\" ++ target
                else basePath ++ "|" ++ target) q.Pi.IsPiPoint).map (fun webID =>
        { Label := target, WebID := webID, UID := uid,
          IntervalNanoSeconds := q.Interval, IsPIPoint := q.Pi.IsPiPoint,
          Streamable := q.isStreamable,
          FullTargetPath := (if q.Pi.IsPiPoint then basePath ++ "\\" ++ target
                             else basePath ++ "|" ++ target),
          BatchRequest := { Method := "GET",
                            Resource := dsURL ++ q.getQueryBaseURL ++ "&webid=" ++ webID },
          Response := none }))) := by
  simp only [Datasource.processQuery, ht, Option.some_bind]
  exact processTargets_eq_filterMap resolve q uid dsURL basePath hb targets

/-- C10: a query carrying a non-empty expression is never streamable,
every `PiProcessedQuery` derived from it has `Streamable = false`, and
the frame assembler attaches no channel and mints no channel entry for a
non-streamable processed query. -/
theorem c10_expression_not_streamable (q : Query) (h : q.Pi.isExpression = true) :
    q.isStreamable = false ∧
    (∀ (resolve : String → Bool → Option String) (uid dsURL : String)
       (pqs : List PiProcessedQuery),
      Datasource.processQuery resolve q uid dsURL = some pqs →
      ∀ p ∈ pqs, p.Streamable = false) ∧
    (∀ (o : DataFrameOracles) (uuid refID : String) (p : PiProcessedQuery),
      p.Streamable = false →
      ∀ frame mint, frameForQuery o uuid refID p = some (frame, mint) →
        frame.Channel = none ∧ mint = none) := by
  have hstr : q.isStreamable = false := by simp [Query.isStreamable, h]
  refine ⟨hstr, fun resolve uid dsURL pqs hpq p hp => ?_, fun o uuid refID p hp frame mint hf => ?_⟩
  · simp only [Datasource.processQuery, Option.bind_eq_bind, Option.bind_eq_some] at hpq
    obtain ⟨ts, hts, hproc⟩ := hpq
    cases hbp : q.Pi.getBasePath with
    | some basePath =>
        have := processTargets_streamable resolve q uid dsURL basePath hbp ts pqs hproc p hp
        rw [this, hstr]
    | none =>
        cases ts with
        | nil =>
            simp only [processTargets, Option.some.injEq] at hproc
            rw [← hproc] at hp
            cases hp
        | cons t2 ts2 =>
            rw [show processTargets resolve q uid dsURL (t2 :: ts2) = none from by
              simp [processTargets, hbp]] at hproc
            cases hproc
  · cases hr : p.Response with
    | none => simp [frameForQuery, hr] at hf
    | some content =>
        cases hi : content.getItems with
        | none => simp [frameForQuery, hr, hi] at hf
        | some items =>
            by_cases he : o.convertError p.Label items (o.getTypeForWebID p.WebID)
                (o.getDigitalStateforWebID p.WebID) = true
            · simp [frameForQuery, hr, hi, hp, he] at hf
              obtain ⟨h1, h2⟩ := hf
              exact ⟨by rw [← h1], by rw [← h2]⟩
            · simp [frameForQuery, hr, hi, hp, he] at hf
              obtain ⟨h1, h2⟩ := hf
              exact ⟨by rw [← h1], by rw [← h2]⟩

/-- A sample UTC time. -/
def witTimeFrom : GoTime :=
  { year := 2024, month := 1, day := 2, hour := 3, minute := 4, second := 5 }

/-- A second sample UTC time. -/
def witTimeTo : GoTime :=
  { year := 2024, month := 1, day := 2, hour := 4, minute := 4, second := 5 }

/-- A plain attribute-style query payload over the target
`Base;Seg1;Seg2` with no mode flags. -/
def basePi : PIWebAPIQuery :=
  { EnableStreaming := ⟨false⟩, Expression := "", Interpolate := ⟨false⟩,
    IntervalMs := 0, IsPiPoint := false, MaxDataPoints := 0,
    RecordedValues := ⟨false, 0⟩, Regex := ⟨false⟩,
    Summary := { Basis := "", Interval := "", Nodata := "", Types := [] },
    Target := "Base;Seg1;Seg2" }

/-- A sample query over `basePi`. -/
def baseQuery : Query :=
  { RefID := "A", QueryType := "timeSeriesQuery", MaxDataPoints := 300,
    Interval := 1000, TimeRange := { From := witTimeFrom, To := witTimeTo },
    Pi := basePi }

/-- A resolution oracle that resolves every path to the WebID `W1`. -/
def witResolve : String → Bool → Option String := fun _ _ => some "W1"

/-- A batch API oracle whose send always fails. -/
def failApi : String → List (Nat × BatchSubRequest) → BatchCallOutcome :=
  fun _ _ => .sendFailure

/-- Concrete frame-conversion collaborators. -/
def witOracles : DataFrameOracles :=
  { getTypeForWebID := fun _ => "Float32",
    getDigitalStateforWebID := fun _ => false,
    convertError := fun _ _ _ _ => false }

/-- A query whose target expands to the single segment `Seg1`. -/
def c1Query : Query :=
  { baseQuery with Pi := { basePi with Target := "Base;Seg1" } }

/-- C1: when the batched call for a RefID fails to send, `batchRequest`
leaves every `PiProcessedQuery` of that RefID unchanged (its `Response`
stays the nil interface), exactly as the claim states; but
`processBatchtoFrames` then calls `q.Response.getItems()` on that nil
interface, so the top-level `QueryData` pipeline faults with a nil
dereference instead of emitting a frame for the failed RefID. -/
theorem c1_pipeline_faults_on_batch_failure :
    Datasource.batchRequest failApi
        ((processAllQueries witResolve "uid0" "http://pi" [c1Query]).getD [])
      = (processAllQueries witResolve "uid0" "http://pi" [c1Query]).getD [] ∧
    ((processAllQueries witResolve "uid0" "http://pi" [c1Query]).getD []).map
        (fun e => (e.1, e.2.length)) = [("A", 1)] ∧
    Datasource.QueryData witResolve failApi witOracles (fun _ => "u")
        [c1Query] "uid0" "http://pi" = none :=
  ⟨rfl, rfl, rfl⟩

/-- C3, witness: the expression-branch URI theorem applied to a concrete
expression query. -/
def c3Query : Query := { baseQuery with Pi := { basePi with Expression := "Tag1 + 2" } }

/-- C3, witness. -/
theorem c3_expression_intervals_uri_witness :
    strStartsWith c3Query.getQueryBaseURL "/calculation/intervals" ∧
    strContains c3Query.getQueryBaseURL
      ("?startTime=" ++ rfc3339UTC c3Query.TimeRange.From ++ "&endTime=" ++
        rfc3339UTC c3Query.TimeRange.To) ∧
    strContains c3Query.getQueryBaseURL
      ("&sampleInterval=" ++ toString c3Query.getIntervalTime ++ "ms") ∧
    c3Query.getIntervalTime =
      (if c3Query.Pi.IntervalMs ≠ 0 then c3Query.Pi.IntervalMs else c3Query.Interval) ∧
    strContains c3Query.getQueryBaseURL
      ("&expression=" ++ queryEscape c3Query.Pi.Expression) :=
  c3_expression_intervals_uri c3Query (by decide) rfl

/-- C4, witness: the mode-selection theorem applied to a concrete query
with no mode flags, selecting `/plot`. -/
theorem c4_mode_selection_witness :
    ∃ m, m ∈ uriModes ∧
      strStartsWith baseQuery.getQueryBaseURL ("/streamsets" ++ m) ∧
      (∀ m2, m2 ∈ uriModes →
        strStartsWith baseQuery.getQueryBaseURL ("/streamsets" ++ m2) → m2 = m) ∧
      m = (if baseQuery.Pi.isSummary then "/summary"
           else if baseQuery.Pi.isInterpolated then "/interpolated"
           else if baseQuery.Pi.isRecordedValues then "/recorded" else "/plot") :=
  c4_mode_selection baseQuery rfl

/-- C5, witness: expanding `Base;Seg1;Seg2` with attribute-style joining
yields exactly the two full paths `Base|Seg1` and `Base|Seg2`. -/
theorem c5_target_expansion_witness :
    ∃ pqs, Datasource.processQuery witResolve baseQuery "uid0" "http://pi" = some pqs ∧
      pqs.length = 2 ∧
      pqs.map (fun p => p.FullTargetPath) = ["Base|Seg1", "Base|Seg2"] :=
  c5_target_expansion witResolve baseQuery "uid0" "http://pi" "Base" ["Seg1", "Seg2"]
    rfl rfl (fun _ _ => rfl)

/-- C6, witness: the summary-fragment theorem applied to a concrete
expression query with summary configured. -/
def c6Summary : QuerySummary :=
  { Basis := "EventWeighted", Interval := "", Nodata := "Null",
    Types := [{ Label := "avg", Value := { Expandable := false, Value := "Average" } }] }

/-- A concrete expression query with summary configured. -/
def c6Query : Query :=
  { baseQuery with Pi := { basePi with Expression := "x 1", Summary := c6Summary } }

/-- C6, witness. -/
theorem c6_summary_fragment_witness :
    c6Query.Pi.getSummaryURIComponent = "" ∧
    (c6Query.Pi.isSummary = true →
      c6Query.getQueryBaseURL =
        "/calculation" ++ "/summary" ++ c6Query.getTimeRangeURIComponent ++
        (if c6Query.Pi.isInterpolated then
           "&sampleType=Interval&sampleInterval=" ++ toString c6Query.getIntervalTime ++ "ms"
         else "") ++ "&expression=" ++ queryEscape c6Query.Pi.Expression) :=
  (c6_summary_fragment c6Query).2 rfl

/-- A resolution oracle that fails on `Base|Seg1` and resolves every
other path to `W2`. -/
def c7Resolve : String → Bool → Option String :=
  fun full _ => if full = "Base|Seg1" then none else some "W2"

/-- The processed-query list expected from expanding `Base;Seg1;Seg2`
under `c7Resolve`: one entry per segment the oracle resolves. -/
def c7Expected : List PiProcessedQuery :=
  ["Seg1", "Seg2"].filterMap (fun target =>
    (c7Resolve (if baseQuery.Pi.IsPiPoint then "Base" ++ "\\" ++ target
                else "Base" ++ "|" ++ target) baseQuery.Pi.IsPiPoint).map (fun webID =>
      { Label := target, WebID := webID, UID := "uid0",
        IntervalNanoSeconds := baseQuery.Interval, IsPIPoint := baseQuery.Pi.IsPiPoint,
        Streamable := baseQuery.isStreamable,
        FullTargetPath := (if baseQuery.Pi.IsPiPoint then "Base" ++ "\\" ++ target
                           else "Base" ++ "|" ++ target),
        BatchRequest := { Method := "GET",
                          Resource := "http://pi" ++ baseQuery.getQueryBaseURL ++
                            "&webid=" ++ webID },
        Response := none }))

/-- C7, witness: with resolution failing on the first segment only, the
processed-query list keeps exactly the sibling segment `Seg2`. -/
theorem c7_segment_failure_isolated_witness :
    Datasource.processQuery c7Resolve baseQuery "uid0" "http://pi" = some c7Expected ∧
    c7Expected.map (fun p => p.Label) = ["Seg2"] :=
  ⟨c7_segment_failure_isolated c7Resolve baseQuery "uid0" "http://pi" "Base" ["Seg1", "Seg2"]
    rfl rfl, rfl⟩

/-- C9, witness: the slicing-totality theorem applied to the concrete
target `Base;Seg1`. -/
theorem c9_target_slicing_total_witness :
    (0 ≤ goStringIndex "Base;Seg1" ';' ∧
      goStringIndex "Base;Seg1" ';' < (("Base;Seg1" : String).data.length : Int)) ∧
    (∀ pi2 : PIWebAPIQuery, pi2.Target = "Base;Seg1" →
      pi2.getBasePath.isSome ∧ pi2.getTargets.isSome) ∧
    (∀ (resolve : String → Bool → Option String) (q : Query) (uid dsURL : String),
      q.Pi.Target = "Base;Seg1" → (Datasource.processQuery resolve q uid dsURL).isSome) :=
  c9_target_slicing_total "Base;Seg1" (by decide)

/-- A streaming-enabled expression query. -/
def c10Query : Query :=
  { baseQuery with Pi := { basePi with Expression := "Tag1", EnableStreaming := ⟨true⟩ } }

/-- C10, witness: the theorem applied to a streaming-enabled expression
query. -/
theorem c10_expression_not_streamable_witness :
    c10Query.isStreamable = false ∧
    (∀ (resolve : String → Bool → Option String) (uid dsURL : String)
       (pqs : List PiProcessedQuery),
      Datasource.processQuery resolve c10Query uid dsURL = some pqs →
      ∀ p ∈ pqs, p.Streamable = false) ∧
    (∀ (o : DataFrameOracles) (uuid refID : String) (p : PiProcessedQuery),
      p.Streamable = false →
      ∀ frame mint, frameForQuery o uuid refID p = some (frame, mint) →
        frame.Channel = none ∧ mint = none) :=
  c10_expression_not_streamable c10Query rfl
